import Mathlib

/-!
Shallow embedding of the woxml streaming XML writer.

Source of truth: `src/woxml.rs` (the `XmlWriter` state machine) and
`src/error.rs` (the error taxonomy) of the woxml repository.

Modelling conventions:
* the byte sink (`writer: Box<W>`, a `std::io::Write`) is modelled as the
  string `out` accumulated so far; the sink of the repository's own tests is
  an infallible growable buffer (`Vec<u8>`), so sink writes never fail here;
* the Rust `Vec` stacks push/pop at the end; here the head of the list is
  the top of the stack, which preserves lengths and LIFO behaviour;
* `assert!`/`panic!`/`unwrap_or_else(panic!)` sites are modelled as
  `Except.error` carrying a `Panic` value naming the panic site, so that a
  run that panics is distinguishable from one that returns normally;
* operations that cannot panic are total functions `Writer → Writer`.
-/

namespace Woxml

/-- Panic sites of `src/woxml.rs`: `closeNamespace` is the
`unwrap_or_else(panic!)` in `end_elem` when `ns_stack` is empty;
`closeElem` is the `panic!` in `end_elem` when `stack` is empty;
`attrNoElem` is the `assert!(self.opened)` of `attr`/`attr_esc`;
`nsDeclNoElem` is the `assert!(self.opened)` of `ns_decl`. -/
inductive Panic where
  | closeNamespace
  | closeElem
  | attrNoElem
  | nsDeclNoElem
deriving DecidableEq, Repr

/-- Error taxonomy of `src/error.rs` (`pub enum Error`). Note that
`src/woxml.rs` never constructs these values: its misuse checks are
`assert!`/`panic!` sites (see `Panic`). -/
inductive Error where
  | CloseElement
  | CloseNamespace
  | OpenNamespaceWithoutElement
  | WriteWithoutElement
  | WriteAllEof
  | ParsingUtf8
deriving DecidableEq, Repr

/-- The `XmlWriter` state (`struct XmlWriter` of `src/woxml.rs`).
`out` is the content of the byte sink written so far. -/
structure Writer where
  /-- element stack; the `Bool` indicates the element having children -/
  stack : List (String × Bool)
  /-- namespace stack -/
  ns_stack : List (Option String)
  /-- bytes written to the sink so far -/
  out : String
  /-- the XML namespace all elements will be part of, unless `none` -/
  «namespace» : Option String
  /-- pretty mode flag -/
  pretty : Bool
  /-- if `true` the current elem is open -/
  opened : Bool
  /-- newline indicator -/
  newline : Bool
  /-- if `true` the current elem has only text content -/
  text_content : Bool
deriving DecidableEq, Repr

/-- The apostrophe character (avoids a literal in the source text). -/
def aposChar : Char := Char.ofNat 39

/-- The apostrophe as a one-character string. -/
def aposStr : String := String.singleton aposChar

/-- `XmlWriter::compact_mode`: fresh writer with compact output. -/
def compact_mode : Writer :=
  { stack := [], ns_stack := [], out := "", «namespace» := none,
    pretty := false, opened := false, newline := false, text_content := false }

/-- `XmlWriter::pretty_mode`: fresh writer with pretty output. -/
def pretty_mode : Writer :=
  { stack := [], ns_stack := [], out := "", «namespace» := none,
    pretty := true, opened := false, newline := false, text_content := false }

/-- `XmlWriter::set_compact_mode`. -/
def set_compact_mode (w : Writer) : Writer := { w with pretty := false }

/-- `XmlWriter::set_pretty_mode`. -/
def set_pretty_mode (w : Writer) : Writer := { w with pretty := true }

/-- `XmlWriter::namespace`: get the namespace. -/
def namespaceGet (w : Writer) : Option String := w.«namespace»

/-- `XmlWriter::set_namespace`. -/
def set_namespace (w : Writer) (ns : String) : Writer :=
  { w with «namespace» := some ns }

/-- `XmlWriter::unset_namespace`. -/
def unset_namespace (w : Writer) : Writer := { w with «namespace» := none }

/-- `XmlWriter::write`: raw write of `text` to the sink (infallible sink). -/
def write (w : Writer) (text : String) : Writer := { w with out := w.out ++ text }

/-- `XmlWriter::dtd`. -/
def dtd (w : Writer) (encoding : String) : Writer :=
  write (write (write w "<?xml version=\"1.0\" encoding=\"") encoding) "\" ?>\n"

/-- `XmlWriter::indent` (private helper). -/
def indent (w : Writer) : Writer :=
  let d := w.stack.length
  if w.pretty then
    let w1 := if w.newline then write w "\n" else { w with newline := true }
    write w1 (String.join (List.replicate d "  "))
  else w

/-- The private namespace-qualifier helper of `XmlWriter`: write `ns:` if a namespace is set. -/
def nsPrefixW (w : Writer) (ns : Option String) : Writer :=
  match ns with
  | some n => write (write w n) ":"
  | none => w

/-- `XmlWriter::close_elem` (private helper): terminate the currently
unterminated start tag, if any. -/
def close_elem (w : Writer) (has_children : Bool) : Writer :=
  if w.opened then
    let w1 := if w.pretty && !has_children then write w "/>" else write w ">"
    { w1 with opened := false }
  else w

/-- The `if let Some(mut previous) = self.stack.pop()` block repeated in
`begin_elem`/`empty_elem`/`text`/`cdata`/`comment`: change the previous
(top-of-stack) elem to having children. -/
def markPreviousChild (w : Writer) : Writer :=
  match w.stack with
  | [] => w
  | (n, _) :: rest => { w with stack := (n, true) :: rest }

/-- `escape`'s per-character case split (the `match c` in
`XmlWriter::escape`). -/
def escapeChar (c : Char) (ident : Bool) : String :=
  if c = '"' then "&quot;"
  else if c = aposChar then "&apos;"
  else if c = '&' then "&amp;"
  else if c = '<' then "&lt;"
  else if c = '>' then "&gt;"
  else if c = '\\' ∧ ident = true then "\\\\"
  else String.singleton c

/-- The string emitted by `XmlWriter::escape` for input `text`
(the loop writes `escapeChar c ident` for each character in order). -/
def escapeStr (text : String) (ident : Bool) : String :=
  String.join (text.data.map (fun c => escapeChar c ident))

/-- `XmlWriter::escape` (private helper). -/
def escape (w : Writer) (text : String) (ident : Bool) : Writer :=
  write w (escapeStr text ident)

/-- `XmlWriter::elem`: write a self-closing element in one call. -/
def elem (w : Writer) (name : String) : Writer :=
  let w1 := close_elem w false
  let w2 := indent w1
  let w3 := write w2 "<"
  let w4 := nsPrefixW w3 w3.«namespace»
  let w5 := write w4 name
  write w5 "/>"

/-- `XmlWriter::elem_text`: write an element with inlined (escaped) text. -/
def elem_text (w : Writer) (name text : String) : Writer :=
  let w1 := close_elem w false
  let w2 := indent w1
  let w3 := write w2 "<"
  let w4 := nsPrefixW w3 w3.«namespace»
  let w5 := write w4 name
  let w6 := write w5 ">"
  let w7 := escape w6 text false
  let w8 := write w7 "</"
  let w9 := write w8 name
  write w9 ">"

/-- `XmlWriter::begin_elem`. -/
def begin_elem (w : Writer) (name : String) : Writer :=
  let w1 := close_elem w true
  let w2 := markPreviousChild w1
  let w3 := indent w2
  let w4 := { w3 with stack := (name, false) :: w3.stack,
                      ns_stack := w3.«namespace» :: w3.ns_stack }
  let w5 := write w4 "<"
  let w6 := { w5 with opened := true }
  let w7 := nsPrefixW w6 w6.«namespace»
  write w7 name

/-- `XmlWriter::end_elem`. -/
def end_elem (w : Writer) : Except Panic Writer :=
  let w1 := close_elem w false
  match w1.ns_stack with
  | [] => Except.error Panic.closeNamespace
  | ns :: nsRest =>
    match w1.stack with
    | [] => Except.error Panic.closeElem
    | (name, children) :: rest =>
      let w2 := { w1 with ns_stack := nsRest, stack := rest }
      if w2.pretty && !children then Except.ok w2
      else
        let w3 := if w2.pretty && !w2.text_content then indent w2 else w2
        let w4 := if w2.pretty then { w3 with text_content := false } else w3
        Except.ok (write (write (nsPrefixW (write w4 "</") ns) name) ">")

/-- `XmlWriter::empty_elem`. -/
def empty_elem (w : Writer) (name : String) : Writer :=
  let w1 := close_elem w true
  let w2 := markPreviousChild w1
  let w3 := indent w2
  let w4 := write w3 "<"
  let w5 := nsPrefixW w4 w4.«namespace»
  let w6 := write w5 name
  write w6 "/>"

/-- `XmlWriter::attr`: write an attribute without escaping. -/
def attr (w : Writer) (name value : String) : Except Panic Writer :=
  if w.opened then
    Except.ok (write (write (write (write (write w " ") name) "=\"") value) "\"")
  else Except.error Panic.attrNoElem

/-- `XmlWriter::attr_esc`: write an attribute, escaping name and value. -/
def attr_esc (w : Writer) (name value : String) : Except Panic Writer :=
  if w.opened then
    Except.ok (write (escape (write (escape (write w " ") name true) "=\"") value false) "\"")
  else Except.error Panic.attrNoElem

/-- `XmlWriter::ns_decl`: write namespace declarations into the currently
open element. -/
def ns_decl (w : Writer) (ns_map : List (Option String × String)) : Except Panic Writer :=
  if w.opened then
    ns_map.foldlM (fun acc item =>
      let name := match item.1 with
        | none => "xmlns"
        | some pre => "xmlns:" ++ pre
      attr acc name item.2) w
  else Except.error Panic.nsDeclNoElem

/-- `XmlWriter::text`: write escaped text content. -/
def text (w : Writer) (t : String) : Writer :=
  let w1 := close_elem w true
  let w2 := markPreviousChild w1
  let w3 := { w2 with text_content := true }
  escape w3 t false

/-- `XmlWriter::cdata`. -/
def cdata (w : Writer) (c : String) : Writer :=
  let w1 := close_elem w true
  let w2 := markPreviousChild w1
  let w3 := if w2.pretty then indent w2 else w2
  write (write (write w3 "<![CDATA[") c) "]]>"

/-- `XmlWriter::comment`. -/
def comment (w : Writer) (c : String) : Writer :=
  let w1 := close_elem w true
  let w2 := markPreviousChild w1
  let w3 := indent w2
  write (escape (write w3 "<!-- ") c false) " -->"

/-- The loop body of `XmlWriter::close`: `self.stack.len()` is read once,
then `end_elem` runs that many times. -/
def closeLoop : Nat → Writer → Except Panic Writer
  | 0, w => Except.ok w
  | n + 1, w => (end_elem w).bind (closeLoop n)

/-- `XmlWriter::close`: close all open elems. -/
def close (w : Writer) : Except Panic Writer := closeLoop w.stack.length w

/-- `XmlWriter::flush` (the sink is a buffer; flushing performs no write). -/
def flush (w : Writer) : Writer := w

/-- `XmlWriter::into_inner`: consume the writer, returning the sink content. -/
def into_inner (w : Writer) : String := w.out

/-! Pure characterizations of the private helpers, used to state theorems. -/

/-- The effect of the "change previous elem to having children" block on the
element stack. -/
def markStack : List (String × Bool) → List (String × Bool)
  | [] => []
  | (n, _) :: rest => (n, true) :: rest

/-- The string `close_elem` appends: terminator of a pending start tag. -/
def closeStr (w : Writer) (has_children : Bool) : String :=
  if w.opened then (if w.pretty && !has_children then "/>" else ">") else ""

/-- The newline part `indent` appends. -/
def nlStr (pretty newline : Bool) : String :=
  if pretty && newline then "\n" else ""

/-- The spaces part `indent` appends: two spaces per stack depth. -/
def indentSpaces (pretty : Bool) (d : Nat) : String :=
  if pretty then String.join (List.replicate d "  ") else ""

/-- The string the namespace-qualifier helper appends. -/
def nsPrefixOut : Option String → String
  | some n => n ++ ":"
  | none => ""

instance : DecidableEq (Except Panic Writer)
  | Except.ok a, Except.ok b =>
    if h : a = b then isTrue (by rw [h]) else isFalse (fun hh => h (Except.ok.inj hh))
  | Except.ok _, Except.error _ => isFalse (fun hh => Except.noConfusion hh)
  | Except.error _, Except.ok _ => isFalse (fun hh => Except.noConfusion hh)
  | Except.error e, Except.error f =>
    if h : e = f then isTrue (by rw [h]) else isFalse (fun hh => h (Except.error.inj hh))

/-! Projection lemmas for the state-transforming helpers. -/

@[simp] lemma write_out (w : Writer) (s : String) : (write w s).out = w.out ++ s := rfl

@[simp] lemma write_stack (w : Writer) (s : String) : (write w s).stack = w.stack := rfl

@[simp] lemma write_ns_stack (w : Writer) (s : String) : (write w s).ns_stack = w.ns_stack := rfl

@[simp] lemma write_namespace (w : Writer) (s : String) : (write w s).«namespace» = w.«namespace» := rfl

@[simp] lemma write_pretty (w : Writer) (s : String) : (write w s).pretty = w.pretty := rfl

@[simp] lemma write_opened (w : Writer) (s : String) : (write w s).opened = w.opened := rfl

@[simp] lemma write_newline (w : Writer) (s : String) : (write w s).newline = w.newline := rfl

@[simp] lemma write_text_content (w : Writer) (s : String) : (write w s).text_content = w.text_content := rfl

@[simp] lemma nsPrefixW_out (w : Writer) (ns : Option String) :
    (nsPrefixW w ns).out = w.out ++ nsPrefixOut ns := by
  cases ns <;> simp [nsPrefixW, nsPrefixOut, String.append_assoc]

@[simp] lemma nsPrefixW_stack (w : Writer) (ns : Option String) :
    (nsPrefixW w ns).stack = w.stack := by cases ns <;> rfl

@[simp] lemma nsPrefixW_ns_stack (w : Writer) (ns : Option String) :
    (nsPrefixW w ns).ns_stack = w.ns_stack := by cases ns <;> rfl

@[simp] lemma nsPrefixW_namespace (w : Writer) (ns : Option String) :
    (nsPrefixW w ns).«namespace» = w.«namespace» := by cases ns <;> rfl

@[simp] lemma nsPrefixW_pretty (w : Writer) (ns : Option String) :
    (nsPrefixW w ns).pretty = w.pretty := by cases ns <;> rfl

@[simp] lemma nsPrefixW_opened (w : Writer) (ns : Option String) :
    (nsPrefixW w ns).opened = w.opened := by cases ns <;> rfl

@[simp] lemma nsPrefixW_newline (w : Writer) (ns : Option String) :
    (nsPrefixW w ns).newline = w.newline := by cases ns <;> rfl

@[simp] lemma nsPrefixW_text_content (w : Writer) (ns : Option String) :
    (nsPrefixW w ns).text_content = w.text_content := by cases ns <;> rfl

@[simp] lemma indent_out (w : Writer) :
    (indent w).out = w.out ++ nlStr w.pretty w.newline ++ indentSpaces w.pretty w.stack.length := by
  cases hp : w.pretty <;> cases hn : w.newline <;>
    simp [indent, nlStr, indentSpaces, write, hp, hn, String.append_assoc]

@[simp] lemma indent_newline (w : Writer) : (indent w).newline = (w.pretty || w.newline) := by
  cases hp : w.pretty <;> cases hn : w.newline <;> simp [indent, write, hp, hn]

@[simp] lemma indent_stack (w : Writer) : (indent w).stack = w.stack := by
  cases hp : w.pretty <;> cases hn : w.newline <;> simp [indent, write, hp, hn]

@[simp] lemma indent_ns_stack (w : Writer) : (indent w).ns_stack = w.ns_stack := by
  cases hp : w.pretty <;> cases hn : w.newline <;> simp [indent, write, hp, hn]

@[simp] lemma indent_namespace (w : Writer) : (indent w).«namespace» = w.«namespace» := by
  cases hp : w.pretty <;> cases hn : w.newline <;> simp [indent, write, hp, hn]

@[simp] lemma indent_pretty (w : Writer) : (indent w).pretty = w.pretty := by
  cases hp : w.pretty <;> cases hn : w.newline <;> simp [indent, write, hp, hn]

@[simp] lemma indent_opened (w : Writer) : (indent w).opened = w.opened := by
  cases hp : w.pretty <;> cases hn : w.newline <;> simp [indent, write, hp, hn]

@[simp] lemma indent_text_content (w : Writer) : (indent w).text_content = w.text_content := by
  cases hp : w.pretty <;> cases hn : w.newline <;> simp [indent, write, hp, hn]

@[simp] lemma close_elem_out (w : Writer) (b : Bool) :
    (close_elem w b).out = w.out ++ closeStr w b := by
  cases ho : w.opened <;> simp [close_elem, closeStr, write, ho] <;> split_ifs <;> rfl

@[simp] lemma close_elem_opened (w : Writer) (b : Bool) : (close_elem w b).opened = false := by
  cases ho : w.opened <;> simp [close_elem, write, ho] <;> split_ifs <;> rfl

@[simp] lemma close_elem_stack (w : Writer) (b : Bool) : (close_elem w b).stack = w.stack := by
  cases ho : w.opened <;> simp [close_elem, write, ho] <;> split_ifs <;> rfl

@[simp] lemma close_elem_ns_stack (w : Writer) (b : Bool) : (close_elem w b).ns_stack = w.ns_stack := by
  cases ho : w.opened <;> simp [close_elem, write, ho] <;> split_ifs <;> rfl

@[simp] lemma close_elem_namespace (w : Writer) (b : Bool) :
    (close_elem w b).«namespace» = w.«namespace» := by
  cases ho : w.opened <;> simp [close_elem, write, ho] <;> split_ifs <;> rfl

@[simp] lemma close_elem_pretty (w : Writer) (b : Bool) : (close_elem w b).pretty = w.pretty := by
  cases ho : w.opened <;> simp [close_elem, write, ho] <;> split_ifs <;> rfl

@[simp] lemma close_elem_newline (w : Writer) (b : Bool) : (close_elem w b).newline = w.newline := by
  cases ho : w.opened <;> simp [close_elem, write, ho] <;> split_ifs <;> rfl

@[simp] lemma close_elem_text_content (w : Writer) (b : Bool) :
    (close_elem w b).text_content = w.text_content := by
  cases ho : w.opened <;> simp [close_elem, write, ho] <;> split_ifs <;> rfl

@[simp] lemma markPreviousChild_stack (w : Writer) :
    (markPreviousChild w).stack = markStack w.stack := by
  rcases hs : w.stack with _ | ⟨⟨n, b⟩, rest⟩ <;> simp [markPreviousChild, markStack, hs]

@[simp] lemma markPreviousChild_out (w : Writer) : (markPreviousChild w).out = w.out := by
  rcases hs : w.stack with _ | ⟨⟨n, b⟩, rest⟩ <;> simp [markPreviousChild, hs]

@[simp] lemma markPreviousChild_ns_stack (w : Writer) :
    (markPreviousChild w).ns_stack = w.ns_stack := by
  rcases hs : w.stack with _ | ⟨⟨n, b⟩, rest⟩ <;> simp [markPreviousChild, hs]

@[simp] lemma markPreviousChild_namespace (w : Writer) :
    (markPreviousChild w).«namespace» = w.«namespace» := by
  rcases hs : w.stack with _ | ⟨⟨n, b⟩, rest⟩ <;> simp [markPreviousChild, hs]

@[simp] lemma markPreviousChild_pretty (w : Writer) : (markPreviousChild w).pretty = w.pretty := by
  rcases hs : w.stack with _ | ⟨⟨n, b⟩, rest⟩ <;> simp [markPreviousChild, hs]

@[simp] lemma markPreviousChild_opened (w : Writer) : (markPreviousChild w).opened = w.opened := by
  rcases hs : w.stack with _ | ⟨⟨n, b⟩, rest⟩ <;> simp [markPreviousChild, hs]

@[simp] lemma markPreviousChild_newline (w : Writer) : (markPreviousChild w).newline = w.newline := by
  rcases hs : w.stack with _ | ⟨⟨n, b⟩, rest⟩ <;> simp [markPreviousChild, hs]

@[simp] lemma markPreviousChild_text_content (w : Writer) :
    (markPreviousChild w).text_content = w.text_content := by
  rcases hs : w.stack with _ | ⟨⟨n, b⟩, rest⟩ <;> simp [markPreviousChild, hs]

@[simp] lemma markStack_length (s : List (String × Bool)) : (markStack s).length = s.length := by
  rcases s with _ | ⟨⟨n, b⟩, rest⟩ <;> rfl

@[simp] lemma escape_out (w : Writer) (t : String) (i : Bool) :
    (escape w t i).out = w.out ++ escapeStr t i := rfl

@[simp] lemma escape_stack (w : Writer) (t : String) (i : Bool) :
    (escape w t i).stack = w.stack := rfl

@[simp] lemma escape_ns_stack (w : Writer) (t : String) (i : Bool) :
    (escape w t i).ns_stack = w.ns_stack := rfl

lemma escapeStr_singleton (c : Char) (i : Bool) :
    escapeStr (String.singleton c) i = escapeChar c i := by
  show String.join (List.map _ (String.singleton c).data) = _
  have hd : (String.singleton c).data = [c] := rfl
  rw [hd]
  show String.join [escapeChar c i] = escapeChar c i
  show "" ++ escapeChar c i = escapeChar c i
  simp

@[simp] lemma set_namespace_stack (w : Writer) (n : String) :
    (set_namespace w n).stack = w.stack := rfl

@[simp] lemma set_namespace_ns_stack (w : Writer) (n : String) :
    (set_namespace w n).ns_stack = w.ns_stack := rfl

@[simp] lemma set_namespace_out (w : Writer) (n : String) :
    (set_namespace w n).out = w.out := rfl

@[simp] lemma set_namespace_pretty (w : Writer) (n : String) :
    (set_namespace w n).pretty = w.pretty := rfl

@[simp] lemma set_namespace_opened (w : Writer) (n : String) :
    (set_namespace w n).opened = w.opened := rfl

@[simp] lemma set_namespace_newline (w : Writer) (n : String) :
    (set_namespace w n).newline = w.newline := rfl

@[simp] lemma set_namespace_text_content (w : Writer) (n : String) :
    (set_namespace w n).text_content = w.text_content := rfl

@[simp] lemma set_namespace_namespace (w : Writer) (n : String) :
    (set_namespace w n).«namespace» = some n := rfl

@[simp] lemma begin_elem_stack (w : Writer) (n : String) :
    (begin_elem w n).stack = (n, false) :: markStack w.stack := by simp [begin_elem]

@[simp] lemma begin_elem_ns_stack (w : Writer) (n : String) :
    (begin_elem w n).ns_stack = w.«namespace» :: w.ns_stack := by simp [begin_elem]

@[simp] lemma begin_elem_opened (w : Writer) (n : String) :
    (begin_elem w n).opened = true := by simp [begin_elem]

@[simp] lemma begin_elem_pretty (w : Writer) (n : String) :
    (begin_elem w n).pretty = w.pretty := by simp [begin_elem]

@[simp] lemma begin_elem_newline (w : Writer) (n : String) :
    (begin_elem w n).newline = (w.pretty || w.newline) := by simp [begin_elem]

@[simp] lemma begin_elem_text_content (w : Writer) (n : String) :
    (begin_elem w n).text_content = w.text_content := by simp [begin_elem]

@[simp] lemma begin_elem_namespace (w : Writer) (n : String) :
    (begin_elem w n).«namespace» = w.«namespace» := by simp [begin_elem]

lemma begin_elem_out (w : Writer) (n : String) :
    (begin_elem w n).out = w.out ++ closeStr w true ++ nlStr w.pretty w.newline ++
      indentSpaces w.pretty w.stack.length ++ "<" ++ nsPrefixOut w.«namespace» ++ n := by
  simp [begin_elem, String.append_assoc]

lemma end_elem_ok (w : Writer) (name : String) (children : Bool)
    (rest : List (String × Bool)) (ns : Option String) (nsrest : List (Option String))
    (hs : w.stack = (name, children) :: rest) (hn : w.ns_stack = ns :: nsrest) :
    ∃ w', end_elem w = Except.ok w' ∧ w'.stack = rest ∧ w'.ns_stack = nsrest := by
  simp only [end_elem, close_elem_ns_stack, close_elem_stack, hs, hn]
  split_ifs <;> exact ⟨_, rfl, by simp, by simp⟩

lemma end_elem_err_ns (w : Writer) (hn : w.ns_stack = []) :
    end_elem w = Except.error Panic.closeNamespace := by
  simp only [end_elem, close_elem_ns_stack, hn]

lemma end_elem_err_stack (w : Writer) (ns : Option String) (nsrest : List (Option String))
    (hs : w.stack = []) (hn : w.ns_stack = ns :: nsrest) :
    end_elem w = Except.error Panic.closeElem := by
  simp only [end_elem, close_elem_ns_stack, close_elem_stack, hs, hn]

lemma foldl_append_length (l : List String) (s : String) :
    (l.foldl (· ++ ·) s).length = s.length + (l.map String.length).sum := by
  induction l generalizing s with
  | nil => simp
  | cons a t ih => simp [ih, String.length_append]; omega

lemma join_replicate_spaces_length (d : Nat) :
    (String.join (List.replicate d "  ")).length = 2 * d := by
  show ((List.replicate d "  ").foldl (· ++ ·) "").length = 2 * d
  rw [foldl_append_length]
  have h2 : "  ".length = 2 := rfl
  have h0 : ("" : String).length = 0 := rfl
  simp only [List.map_replicate, List.sum_replicate, h2, h0, smul_eq_mul]
  omega

/-- C7: the escaping applied by `attr_esc`, `elem_text`, `text` and `comment`
maps, per character: double quote to `&quot;`, apostrophe to `&apos;`,
ampersand to `&amp;`, `<` to `&lt;`, `>` to `&gt;`; a backslash is doubled
only when escaping an identifier/attribute-name (the name argument of
`attr_esc`), not in values or text; every other character passes through
unchanged; `attr_esc` escapes the name with the identifier flag and the
value without it, and `elem_text`/`text`/`comment` escape without it. -/
theorem c7_escape_table :
    (∀ i : Bool, escapeStr (String.singleton '"') i = "&quot;") ∧
    (∀ i : Bool, escapeStr aposStr i = "&apos;") ∧
    (∀ i : Bool, escapeStr (String.singleton '&') i = "&amp;") ∧
    (∀ i : Bool, escapeStr (String.singleton '<') i = "&lt;") ∧
    (∀ i : Bool, escapeStr (String.singleton '>') i = "&gt;") ∧
    escapeStr (String.singleton '\\') true = "\\\\" ∧
    escapeStr (String.singleton '\\') false = "\\" ∧
    (∀ (c : Char) (i : Bool), c ≠ '"' → c ≠ aposChar → c ≠ '&' → c ≠ '<' → c ≠ '>' →
      (c = '\\' → i = false) → escapeStr (String.singleton c) i = String.singleton c) ∧
    (∀ (w : Writer) (n v : String) (w' : Writer), attr_esc w n v = Except.ok w' →
      w'.out = w.out ++ " " ++ escapeStr n true ++ "=\"" ++ escapeStr v false ++ "\"") ∧
    (∀ (w : Writer) (n t : String), (elem_text w n t).out =
      w.out ++ closeStr w false ++ nlStr w.pretty w.newline ++
        indentSpaces w.pretty w.stack.length ++ "<" ++ nsPrefixOut w.«namespace» ++ n ++ ">" ++
        escapeStr t false ++ "</" ++ n ++ ">") ∧
    (∀ (w : Writer) (t : String), (text w t).out = w.out ++ closeStr w true ++ escapeStr t false) ∧
    (∀ (w : Writer) (c : String), (comment w c).out =
      w.out ++ closeStr w true ++ nlStr w.pretty w.newline ++
        indentSpaces w.pretty w.stack.length ++ "<!-- " ++ escapeStr c false ++ " -->") := by
  refine ⟨?_, ?_, ?_, ?_, ?_, ?_, ?_, ?_, ?_, ?_, ?_, ?_⟩
  · intro i; rw [escapeStr_singleton]; cases i <;> decide
  · intro i; rw [show aposStr = String.singleton aposChar from rfl, escapeStr_singleton]
    cases i <;> decide
  · intro i; rw [escapeStr_singleton]; cases i <;> decide
  · intro i; rw [escapeStr_singleton]; cases i <;> decide
  · intro i; rw [escapeStr_singleton]; cases i <;> decide
  · rw [escapeStr_singleton]; decide
  · rw [escapeStr_singleton]; decide
  · intro c i h1 h2 h3 h4 h5 h6
    rw [escapeStr_singleton]
    have h7 : ¬(c = '\\' ∧ i = true) := by
      rintro ⟨hc, hi⟩
      rw [h6 hc] at hi
      exact Bool.false_ne_true hi
    simp [escapeChar, h1, h2, h3, h4, h5, h7]
  · intro w n v w' h
    simp only [attr_esc] at h
    split_ifs at h
    · simp only [Except.ok.injEq] at h
      subst h
      simp [escape, String.append_assoc]
  · intro w n t
    simp [elem_text, escape, String.append_assoc]
  · intro w t
    simp [text, escape, String.append_assoc]
  · intro w c
    simp [comment, escape, String.append_assoc]

/-- Witness for `c7_escape_table`: the passthrough clause applied to the
letter `x` with the identifier flag set, and the `attr_esc` clause applied
to a concrete opened writer. -/
theorem c7_escape_table_witness :
    escapeStr (String.singleton 'x') true = String.singleton 'x' := by
  exact c7_escape_table.2.2.2.2.2.2.2.1 'x' true (by decide) (by decide) (by decide)
    (by decide) (by decide) (fun h => absurd h (by decide))

/-- C8: indentation is active only in pretty mode: if the newline flag is
set, a newline is emitted, otherwise the newline is suppressed once and the
flag is set; then two spaces per current stack depth are emitted; in
compact mode `indent` emits nothing and changes nothing. -/
theorem c8_indent_policy :
    (∀ w : Writer, w.pretty = true → w.newline = true →
      (indent w).out = w.out ++ "\n" ++ String.join (List.replicate w.stack.length "  ") ∧
      (indent w).newline = true) ∧
    (∀ w : Writer, w.pretty = true → w.newline = false →
      (indent w).out = w.out ++ String.join (List.replicate w.stack.length "  ") ∧
      (indent w).newline = true) ∧
    (∀ w : Writer, w.pretty = false → indent w = w) ∧
    (∀ d : Nat, (String.join (List.replicate d "  ")).length = 2 * d) := by
  refine ⟨?_, ?_, ?_, join_replicate_spaces_length⟩
  · intro w hp hn
    constructor
    · simp [hp, hn, nlStr, indentSpaces, String.append_assoc]
    · simp [hp]
  · intro w hp hn
    constructor
    · simp [hp, hn, nlStr, indentSpaces]
    · simp [hp]
  · intro w hp
    simp [indent, hp]

/-- Witness for `c8_indent_policy`: applied to the fresh pretty writer
(pretty, newline flag unset) and to the fresh compact writer. -/
theorem c8_indent_policy_witness :
    ((indent pretty_mode).out = pretty_mode.out ++
        String.join (List.replicate pretty_mode.stack.length "  ") ∧
      (indent pretty_mode).newline = true) ∧
    indent compact_mode = compact_mode := by
  exact ⟨c8_indent_policy.2.1 pretty_mode rfl rfl, c8_indent_policy.2.2.1 compact_mode rfl⟩

/-- C10: `set_compact_mode`, `set_pretty_mode`, `set_namespace`,
`unset_namespace` and the `namespace` getter write no bytes to the sink and
leave the element stack, namespace stack, opened flag, newline flag and
text-content flag unchanged; each modifies at most the pretty flag or the
current namespace field. -/
theorem c10_mode_namespace_frame (w : Writer) (n : String) :
    (set_compact_mode w).out = w.out ∧ (set_compact_mode w).stack = w.stack ∧
    (set_compact_mode w).ns_stack = w.ns_stack ∧ (set_compact_mode w).opened = w.opened ∧
    (set_compact_mode w).newline = w.newline ∧
    (set_compact_mode w).text_content = w.text_content ∧
    (set_compact_mode w).«namespace» = w.«namespace» ∧
    (set_pretty_mode w).out = w.out ∧ (set_pretty_mode w).stack = w.stack ∧
    (set_pretty_mode w).ns_stack = w.ns_stack ∧ (set_pretty_mode w).opened = w.opened ∧
    (set_pretty_mode w).newline = w.newline ∧
    (set_pretty_mode w).text_content = w.text_content ∧
    (set_pretty_mode w).«namespace» = w.«namespace» ∧
    (set_namespace w n).out = w.out ∧ (set_namespace w n).stack = w.stack ∧
    (set_namespace w n).ns_stack = w.ns_stack ∧ (set_namespace w n).opened = w.opened ∧
    (set_namespace w n).newline = w.newline ∧
    (set_namespace w n).text_content = w.text_content ∧
    (set_namespace w n).pretty = w.pretty ∧
    (unset_namespace w).out = w.out ∧ (unset_namespace w).stack = w.stack ∧
    (unset_namespace w).ns_stack = w.ns_stack ∧ (unset_namespace w).opened = w.opened ∧
    (unset_namespace w).newline = w.newline ∧
    (unset_namespace w).text_content = w.text_content ∧
    (unset_namespace w).pretty = w.pretty ∧
    namespaceGet w = w.«namespace» :=
  ⟨rfl, rfl, rfl, rfl, rfl, rfl, rfl, rfl, rfl, rfl, rfl, rfl, rfl, rfl, rfl,
   rfl, rfl, rfl, rfl, rfl, rfl, rfl, rfl, rfl, rfl, rfl, rfl, rfl, rfl⟩

/-- C1: the claim says an element opened and immediately closed self-closes
as `<name/>` with no separate closing tag in BOTH modes. The code
(`close_elem` writes `/>` only under `self.pretty`) self-closes in pretty
mode only; in compact mode `begin_elem` + `end_elem` emits
`<no_children></no_children>`, with a separate closing tag — contradicting
the claim and the repository's own expected output in `tests/woxml.rs`
(`<no_children/>` within the compact-mode expectation). -/
theorem c1_compact_childless_not_selfclosing :
    end_elem (begin_elem compact_mode "no_children") =
      Except.ok { stack := [], ns_stack := [], out := "<no_children></no_children>",
                  «namespace» := none, pretty := false, opened := false,
                  newline := false, text_content := false } ∧
    end_elem (begin_elem pretty_mode "no_children") =
      Except.ok { stack := [], ns_stack := [], out := "<no_children/>",
                  «namespace» := none, pretty := true, opened := false,
                  newline := true, text_content := false } := by
  constructor <;> decide

/-- C2 counterexample: with a start tag unterminated (after
`begin_elem "a"` in pretty mode), `elem "b"` terminates the parent tag as
CHILDLESS, writing `/>` (output `<a/>\n  <b/>`), and leaves the previous
top-of-stack has-children flag `false` — the claim says it writes `>` and
sets the flag to `true`. -/
theorem c2_counterexample :
    (elem (begin_elem pretty_mode "a") "b").out = "<a/>\n  <b/>" ∧
    (elem (begin_elem pretty_mode "a") "b").stack = [("a", false)] ∧
    (elem (begin_elem pretty_mode "a") "b").out ≠ "<a>\n  <b/>" ∧
    (elem (begin_elem pretty_mode "a") "b").stack ≠ [("a", true)] := by
  refine ⟨by decide, by decide, by decide, by decide⟩

/-- C2 amended: when a start tag is unterminated, `elem` and `elem_text`
first terminate it as CHILDLESS (`close_elem(false)`: `/>` in pretty mode,
`>` in compact mode — `closeStr w false`), `elem` does NOT mark the
previous top-of-stack element's has-children flag, and neither call pushes
onto (or otherwise modifies) the element stack or the namespace stack. -/
theorem c2_elem_terminates_parent_childless (w : Writer) (n t : String) :
    (elem w n).stack = w.stack ∧
    (elem w n).ns_stack = w.ns_stack ∧
    (elem_text w n t).stack = w.stack ∧
    (elem_text w n t).ns_stack = w.ns_stack ∧
    (elem w n).out = w.out ++ closeStr w false ++ nlStr w.pretty w.newline ++
      indentSpaces w.pretty w.stack.length ++ "<" ++ nsPrefixOut w.«namespace» ++ n ++ "/>" ∧
    (elem_text w n t).out = w.out ++ closeStr w false ++ nlStr w.pretty w.newline ++
      indentSpaces w.pretty w.stack.length ++ "<" ++ nsPrefixOut w.«namespace» ++ n ++ ">" ++
      escapeStr t false ++ "</" ++ n ++ ">" := by
  refine ⟨by simp [elem], by simp [elem], by simp [elem_text], by simp [elem_text],
    by simp [elem, String.append_assoc], by simp [elem_text, escape, String.append_assoc]⟩

/-- C3 counterexample: `elem` and `empty_elem` are NOT functionally
identical: applied to the same writer (pretty mode, start tag of `a`
unterminated) they emit different bytes (`<a/>\n  <b/>` versus
`<a>\n  <b/>`) and leave different states (has-children flag of `a`). -/
theorem c3_counterexample :
    elem (begin_elem pretty_mode "a") "b" ≠ empty_elem (begin_elem pretty_mode "a") "b" ∧
    (empty_elem (begin_elem pretty_mode "a") "b").out = "<a>\n  <b/>" ∧
    (empty_elem (begin_elem pretty_mode "a") "b").stack = [("a", true)] := by
  refine ⟨by decide, by decide, by decide⟩

/-- C3 amended: `elem` and `empty_elem` agree (same bytes, same resulting
state) on any writer with no unterminated start tag and an empty element
stack, e.g. a fresh writer; in general they differ: `empty_elem` terminates
an unterminated parent as having children and marks the stack top, `elem`
terminates it as childless and leaves the flag unchanged. -/
theorem c3_elem_empty_elem_agree_when_closed_empty (w : Writer) (n : String)
    (ho : w.opened = false) (hs : w.stack = []) :
    elem w n = empty_elem w n := by
  cases w with
  | mk st nss out nsp p o nl tc =>
    simp only at ho hs
    subst ho; subst hs
    rfl

/-- Witness for `c3_elem_empty_elem_agree_when_closed_empty`: the fresh
compact writer. -/
theorem c3_agree_witness :
    compact_mode.opened = false ∧ compact_mode.stack = [] ∧
    elem compact_mode "x" = empty_elem compact_mode "x" :=
  ⟨rfl, rfl, c3_elem_empty_elem_agree_when_closed_empty compact_mode "x" rfl rfl⟩

/-- C4: the claim says misuse is reported by returning the designated
`Error` value and never by a panic. The code panics instead: `attr` and
`attr_esc` hit `assert!(self.opened)` when no start tag is unterminated,
`ns_decl` hits its `assert!(self.opened)`, and `end_elem` with nothing open
hits the `unwrap_or_else(panic!)` on the empty `ns_stack` (the panic whose
message corresponds to `CloseNamespace`, not even `CloseElement`); `close`
with nothing open returns success rather than `CloseElement`. The `Error`
values of `src/error.rs` are never produced. -/
theorem c4_misuse_panics_instead_of_error :
    attr compact_mode "id" "abc" = Except.error Panic.attrNoElem ∧
    attr_esc compact_mode "name" "value" = Except.error Panic.attrNoElem ∧
    ns_decl compact_mode [(none, "http://localhost/")] = Except.error Panic.nsDeclNoElem ∧
    end_elem compact_mode = Except.error Panic.closeNamespace ∧
    close compact_mode = Except.ok compact_mode := by
  refine ⟨rfl, rfl, rfl, by decide, rfl⟩

lemma end_elem_ok_childless (w : Writer) (name : String)
    (rest : List (String × Bool)) (ns : Option String) (nsrest : List (Option String))
    (hs : w.stack = (name, false) :: rest) (hn : w.ns_stack = ns :: nsrest) :
    ∃ w', end_elem w = Except.ok w' ∧ w'.stack = rest ∧ w'.ns_stack = nsrest ∧
      w'.«namespace» = w.«namespace» ∧
      w'.out = w.out ++ closeStr w false ++
        (if w.pretty then "" else "</" ++ nsPrefixOut ns ++ name ++ ">") := by
  simp only [end_elem, close_elem_ns_stack, close_elem_stack, hs, hn]
  cases hp : w.pretty
  · simp only [close_elem_pretty, hp, Bool.false_and, Bool.if_false_left]
    refine ⟨_, rfl, by simp, by simp, by simp, ?_⟩
    simp [hp, String.append_assoc]
  · simp only [close_elem_pretty, hp, Bool.not_false, Bool.and_true, if_true]
    refine ⟨_, rfl, by simp, by simp, by simp, ?_⟩
    simp [hp]

/-- C5: the namespace prefix written in a closing tag equals the namespace
active when that element was opened: open `name` while the namespace is
`ns1`, change the active namespace to `ns2`, open nothing else, close —
the bytes `end_elem` appends mention only `ns1` (`</ns1:name>` in compact
mode; in pretty mode the childless element self-closes as `/>` and no
closing tag is written at all), while `ns2` survives only as the active
namespace field. -/
theorem c5_closing_tag_uses_open_time_namespace (w : Writer) (ns1 ns2 name : String) :
    ∃ w', end_elem (set_namespace (begin_elem (set_namespace w ns1) name) ns2) = Except.ok w' ∧
      w'.out = (begin_elem (set_namespace w ns1) name).out ++
        (if w.pretty then "/>" else ">" ++ "</" ++ ns1 ++ ":" ++ name ++ ">") ∧
      w'.stack = markStack w.stack ∧
      w'.ns_stack = w.ns_stack ∧
      w'.«namespace» = some ns2 := by
  obtain ⟨w', hw, e1, e2, e3, e4⟩ :=
    end_elem_ok_childless (set_namespace (begin_elem (set_namespace w ns1) name) ns2)
      name (markStack w.stack) (some ns1) w.ns_stack (by simp) (by simp)
  refine ⟨w', hw, ?_, e1, e2, by rw [e3]; rfl⟩
  rw [e4]
  cases hp : w.pretty <;>
    simp [closeStr, nsPrefixOut, hp, String.append_assoc] <;> rfl

lemma closeLoop_drains :
    ∀ (n : Nat) (w : Writer), w.stack.length = n → w.ns_stack.length = n →
      ∃ w', closeLoop n w = Except.ok w' ∧ w'.stack = [] ∧ w'.ns_stack = [] := by
  intro n
  induction n with
  | zero =>
    intro w h1 h2
    exact ⟨w, rfl, List.length_eq_zero.mp h1, List.length_eq_zero.mp h2⟩
  | succ k ih =>
    intro w h1 h2
    obtain ⟨a, rest, hs⟩ : ∃ a rest, w.stack = a :: rest := by
      cases hsc : w.stack with
      | nil => rw [hsc] at h1; simp at h1
      | cons a r => exact ⟨a, r, rfl⟩
    obtain ⟨ns, nsrest, hn⟩ : ∃ ns nsrest, w.ns_stack = ns :: nsrest := by
      cases hnc : w.ns_stack with
      | nil => rw [hnc] at h2; simp at h2
      | cons a r => exact ⟨a, r, rfl⟩
    obtain ⟨w1, he, e1, e2⟩ := end_elem_ok w a.1 a.2 rest ns nsrest (by rw [hs]) hn
    have h1' : w1.stack.length = k := by
      rw [e1]; rw [hs] at h1; simpa using h1
    have h2' : w1.ns_stack.length = k := by
      rw [e2]; rw [hn] at h2; simpa using h2
    obtain ⟨w', hc, g1, g2⟩ := ih w1 h1' h2'
    refine ⟨w', ?_, g1, g2⟩
    show (end_elem w).bind (closeLoop k) = Except.ok w'
    rw [he]
    exact hc

/-- C6: `close` invokes `end_elem` once per currently-open stack entry
(`closeLoop` applied to the stack length read once), and on a writer whose
two stacks have equal length it succeeds and drains both stacks to empty;
on a writer with no open elements it performs zero iterations, writes
nothing and returns the writer unchanged (so a second `close` is a
no-op). -/
theorem c6_close_drains (w : Writer) (h : w.stack.length = w.ns_stack.length) :
    ∃ w', close w = Except.ok w' ∧ w'.stack = [] ∧ w'.ns_stack = [] ∧
      (w.stack = [] → w' = w) := by
  obtain ⟨w', hc, h1, h2⟩ := closeLoop_drains w.stack.length w rfl h.symm
  refine ⟨w', hc, h1, h2, ?_⟩
  intro hs
  rw [hs] at hc
  simp only [List.length_nil, closeLoop, Except.ok.injEq] at hc
  exact hc.symm

/-- Witness for `c6_close_drains`: a compact writer with one open element,
and (through the final conjunct instantiated separately below in
`c4_misuse_panics_instead_of_error`-independent form) the fresh writer. -/
theorem c6_close_drains_witness :
    (begin_elem compact_mode "a").stack.length = (begin_elem compact_mode "a").ns_stack.length ∧
    ∃ w', close (begin_elem compact_mode "a") = Except.ok w' ∧
      w'.stack = [] ∧ w'.ns_stack = [] ∧
      ((begin_elem compact_mode "a").stack = [] → w' = begin_elem compact_mode "a") :=
  ⟨rfl, c6_close_drains (begin_elem compact_mode "a") rfl⟩

lemma attr_ok_stacks (w w' : Writer) (n v : String) (h : attr w n v = Except.ok w') :
    w'.stack = w.stack ∧ w'.ns_stack = w.ns_stack := by
  simp only [attr] at h
  split_ifs at h
  simp only [Except.ok.injEq] at h
  subst h
  simp

lemma ns_decl_fold_stacks :
    ∀ (m : List (Option String × String)) (w w' : Writer),
      m.foldlM (fun acc item =>
        let name := match item.1 with
          | none => "xmlns"
          | some pre => "xmlns:" ++ pre
        attr acc name item.2) w = Except.ok w' →
      w'.stack = w.stack ∧ w'.ns_stack = w.ns_stack := by
  intro m
  induction m with
  | nil =>
    intro w w' h
    simp only [List.foldlM_nil] at h
    cases h
    exact ⟨rfl, rfl⟩
  | cons x xs ih =>
    intro w w' h
    rw [List.foldlM_cons] at h
    cases ha : attr w (match x.1 with
        | none => "xmlns"
        | some pre => "xmlns:" ++ pre) x.2 with
    | error e =>
      rw [ha] at h
      exact absurd h (by simp [Bind.bind, Except.bind])
    | ok w1 =>
      rw [ha] at h
      simp only [Bind.bind, Except.bind] at h
      obtain ⟨a1, a2⟩ := attr_ok_stacks w w1 _ x.2 ha
      obtain ⟨g1, g2⟩ := ih w1 w' h
      exact ⟨g1.trans a1, g2.trans a2⟩

/-- C9: `stack.len() == ns_stack.len()` holds for the freshly constructed
writers and is preserved by every public operation that returns normally:
`begin_elem` pushes one entry onto each stack, `end_elem` pops one from
each, all other operations leave both lengths unchanged (and `close`,
which iterates `end_elem`, preserves the equality, draining both). -/
theorem c9_stack_lengths_invariant :
    compact_mode.stack.length = compact_mode.ns_stack.length ∧
    pretty_mode.stack.length = pretty_mode.ns_stack.length ∧
    (∀ (w : Writer) (n : String),
      (begin_elem w n).stack.length = w.stack.length + 1 ∧
      (begin_elem w n).ns_stack.length = w.ns_stack.length + 1) ∧
    (∀ (w w' : Writer), end_elem w = Except.ok w' →
      w.stack.length = w'.stack.length + 1 ∧ w.ns_stack.length = w'.ns_stack.length + 1) ∧
    (∀ (w : Writer) (n t enc : String),
      (set_compact_mode w).stack = w.stack ∧ (set_compact_mode w).ns_stack = w.ns_stack ∧
      (set_pretty_mode w).stack = w.stack ∧ (set_pretty_mode w).ns_stack = w.ns_stack ∧
      (set_namespace w n).stack = w.stack ∧ (set_namespace w n).ns_stack = w.ns_stack ∧
      (unset_namespace w).stack = w.stack ∧ (unset_namespace w).ns_stack = w.ns_stack ∧
      (dtd w enc).stack = w.stack ∧ (dtd w enc).ns_stack = w.ns_stack ∧
      (write w t).stack = w.stack ∧ (write w t).ns_stack = w.ns_stack ∧
      (indent w).stack = w.stack ∧ (indent w).ns_stack = w.ns_stack ∧
      (elem w n).stack = w.stack ∧ (elem w n).ns_stack = w.ns_stack ∧
      (elem_text w n t).stack = w.stack ∧ (elem_text w n t).ns_stack = w.ns_stack ∧
      (empty_elem w n).stack.length = w.stack.length ∧
      (empty_elem w n).ns_stack = w.ns_stack ∧
      (text w t).stack.length = w.stack.length ∧ (text w t).ns_stack = w.ns_stack ∧
      (cdata w t).stack.length = w.stack.length ∧ (cdata w t).ns_stack = w.ns_stack ∧
      (comment w t).stack.length = w.stack.length ∧ (comment w t).ns_stack = w.ns_stack ∧
      (flush w).stack = w.stack ∧ (flush w).ns_stack = w.ns_stack) ∧
    (∀ (w w' : Writer) (n v : String), attr w n v = Except.ok w' →
      w'.stack = w.stack ∧ w'.ns_stack = w.ns_stack) ∧
    (∀ (w w' : Writer) (n v : String), attr_esc w n v = Except.ok w' →
      w'.stack = w.stack ∧ w'.ns_stack = w.ns_stack) ∧
    (∀ (w w' : Writer) (m : List (Option String × String)), ns_decl w m = Except.ok w' →
      w'.stack = w.stack ∧ w'.ns_stack = w.ns_stack) ∧
    (∀ (w w' : Writer), w.stack.length = w.ns_stack.length → close w = Except.ok w' →
      w'.stack.length = w'.ns_stack.length) := by
  refine ⟨rfl, rfl, ?_, ?_, ?_, ?_, ?_, ?_, ?_⟩
  · intro w n
    constructor <;> simp [begin_elem]
  · intro w w' h
    rcases hn : w.ns_stack with _ | ⟨ns, nsrest⟩
    · rw [end_elem_err_ns w hn] at h
      exact absurd h (by simp)
    · rcases hs : w.stack with _ | ⟨a, rest⟩
      · rw [end_elem_err_stack w ns nsrest hs hn] at h
        exact absurd h (by simp)
      · obtain ⟨w1, he, e1, e2⟩ := end_elem_ok w a.1 a.2 rest ns nsrest (by rw [hs]) hn
        rw [he] at h
        simp only [Except.ok.injEq] at h
        subst h
        rw [e1, e2]
        simp
  · intro w n t enc
    refine ⟨rfl, rfl, rfl, rfl, rfl, rfl, rfl, rfl, by simp [dtd], by simp [dtd],
      rfl, rfl, by simp, by simp, by simp [elem], by simp [elem],
      by simp [elem_text], by simp [elem_text], by simp [empty_elem], by simp [empty_elem],
      by simp [text, escape], by simp [text, escape],
      by cases hp : w.pretty <;> simp [cdata, hp], by cases hp : w.pretty <;> simp [cdata, hp],
      by simp [comment, escape], by simp [comment, escape], rfl, rfl⟩
  · exact fun w w' n v h => attr_ok_stacks w w' n v h
  · intro w w' n v h
    simp only [attr_esc] at h
    split_ifs at h
    simp only [Except.ok.injEq] at h
    subst h
    simp
  · intro w w' m h
    simp only [ns_decl] at h
    split_ifs at h
    exact ns_decl_fold_stacks m w w' h
  · intro w w' hlen h
    obtain ⟨w'', hc, e1, e2⟩ := closeLoop_drains w.stack.length w rfl hlen.symm
    have h2 : Except.ok w'' = Except.ok w' := hc.symm.trans h
    simp only [Except.ok.injEq] at h2
    subst h2
    rw [e1, e2]
    rfl

/-- Witness for `c9_stack_lengths_invariant`: the `close` conjunct applied
to the fresh compact writer, whose `close` is the identity. -/
theorem c9_stack_lengths_invariant_witness :
    compact_mode.stack.length = compact_mode.ns_stack.length :=
  c9_stack_lengths_invariant.2.2.2.2.2.2.2.2 compact_mode compact_mode rfl rfl

end Woxml
